import Mathlib

/-!
Shallow embedding of the `wave-dispersion-equation` repository
(`wave-disp-equation.py`, `pade_approximants.py`) and proofs about it.

Real numbers in the Python source are embedded as rationals (`ℚ`).  The
transcendental primitives the source takes from Python's `math` module
(`tanh`, `cosh`, `sqrt`, `pi`, ...) and NumPy's least-squares solver
`np.linalg.lstsq` are external library functions, not code of this
repository; they are abstracted as explicit parameters (`MathPrims`, the
`lstsq` argument of the fitter) so that every theorem below quantifies over
them and concrete witnesses can instantiate them with computable stand-ins.
Python exceptions are embedded with `Except Unit` where a claim is about
raising behaviour.
-/

namespace WaveDisp

/-- Stand-ins for the transcendental primitives of Python's `math` module
(and `float('inf')`, used by one catalogue lambda), abstracted as parameters
of the embedding. -/
structure MathPrims where
  pi : ℚ
  sqrt : ℚ → ℚ
  tanh : ℚ → ℚ
  sinh : ℚ → ℚ
  cosh : ℚ → ℚ
  exp : ℚ → ℚ
  log : ℚ → ℚ
  sin : ℚ → ℚ
  acos : ℚ → ℚ
  cos : ℚ → ℚ
  rpow : ℚ → ℚ → ℚ
  inf : ℚ

/-! ### ImplicitRootSolver: `kh_numeric`
From `pade_approximants.py` lines 32-49 and `wave-disp-equation.py` lines
112-155 (the two copies have the same body; only the defaults
`tol`/`max_iter` differ, which are parameters here). -/

/-- Body of one Newton-Raphson iteration of `kh_numeric`:
`f = k0h - kh*tanh(kh)`, `df = -tanh(kh) - kh/cosh(kh)**2`, `dkh = f/df`,
`kh_new = kh - dkh`.  Returns `(dkh, kh_new)`. -/
def newtonStep (P : MathPrims) (k0h kh : ℚ) : ℚ × ℚ :=
  let f := k0h - kh * P.tanh kh
  let df := -P.tanh kh - kh / (P.cosh kh) ^ 2
  let dkh := f / df
  (dkh, kh - dkh)

/-- The `for _ in range(max_iter)` loop of `kh_numeric`: inside the loop,
if `abs(dkh/kh) < tol` return `kh_new`, else continue with `kh = kh_new`;
when the loop runs out, return the last `kh`. -/
def newtonLoop (P : MathPrims) (k0h tol : ℚ) : ℕ → ℚ → ℚ
  | 0, kh => kh
  | n + 1, kh =>
    let s := newtonStep P k0h kh
    if |s.1 / kh| < tol then s.2 else newtonLoop P k0h tol n s.2

/-- Initial guess of `kh_numeric`: `kh = k0h / tanh((6/5)**k0h * sqrt(k0h))`. -/
def initGuess (P : MathPrims) (k0h : ℚ) : ℚ :=
  k0h / P.tanh (P.rpow (6 / 5) k0h * P.sqrt k0h)

/-- The solver `kh_numeric(k0h, tol, max_iter)` on its non-raising domain:
`if k0h == 0: return 0.0`, otherwise run the Newton loop from the initial
guess.  Python's `range` of a non-positive `max_iter` is empty, hence
`Int.toNat`. -/
def kh_numeric (P : MathPrims) (k0h tol : ℚ) (max_iter : ℤ) : ℚ :=
  if k0h = 0 then 0
  else newtonLoop P k0h tol max_iter.toNat (initGuess P k0h)

/-- Exception-aware embedding of `kh_numeric`: for `k0h < 0` the initial
guess evaluates `math.sqrt(k0h)`, which raises `ValueError`; no other
statement of the function can raise. -/
def kh_numericE (P : MathPrims) (k0h tol : ℚ) (max_iter : ℤ) : Except Unit ℚ :=
  if k0h = 0 then .ok 0
  else if k0h < 0 then .error ()
  else .ok (newtonLoop P k0h tol max_iter.toNat (initGuess P k0h))

/-- The sequence of Newton iterates of `kh_numeric` started at `kh0`
(specification-side view of the loop). -/
def khIter (P : MathPrims) (k0h kh0 : ℚ) : ℕ → ℚ
  | 0 => kh0
  | n + 1 => (newtonStep P k0h (khIter P k0h kh0 n)).2

/-- The stopping test of the Newton loop holds at iterate `i`:
`abs(dkh/kh) < tol` for the step taken from iterate `i`. -/
def stopsAt (P : MathPrims) (k0h tol kh0 : ℚ) (i : ℕ) : Prop :=
  |(newtonStep P k0h (khIter P k0h kh0 i)).1 / khIter P k0h kh0 i| < tol

instance (P : MathPrims) (k0h tol kh0 : ℚ) (i : ℕ) :
    Decidable (stopsAt P k0h tol kh0 i) :=
  inferInstanceAs (Decidable (_ < _))

/-! ### RationalEvaluator: `pade_approximation`
From `pade_approximants.py` lines 102-121. -/

/-- Evaluator `pade_approximation(k0h, p, q)`, exceptions embedded as
`Except.error`: `math.sqrt(k0h)` raises for `k0h < 0`, and the denominator
loop `q[k-1]` for `k = 1..M` (with `M = len(p)-1`) raises `IndexError`
when `q` is shorter than `M`.  Otherwise it returns
`(sum_j p[j]*v^(2j)) * (u_max*v) / (1 + sum_k q[k-1]*v^(2k))` with
`u_max = sqrt(2*pi)`, `u = sqrt(k0h)`, `v = u/u_max`. -/
def pade_approximation (P : MathPrims) (k0h : ℚ) (p q : List ℚ) : Except Unit ℚ :=
  if k0h < 0 then .error ()
  else
    let u_max := P.sqrt (2 * P.pi)
    let u := P.sqrt k0h
    let v := u / u_max
    let M := p.length - 1
    if q.length < M then .error ()
    else
      let num := (((List.range (M + 1)).map (fun j => p.getD j 0 * v ^ (2 * j))).sum) * (u_max * v)
      let denom := 1 + ((List.range M).map (fun k => q.getD k 0 * v ^ (2 * (k + 1)))).sum
      .ok (num / denom)

/-! ### NodeSampler and ApproximantFitter: `compute_pade_coeffs`
From `pade_approximants.py` lines 54-97.  The fitter is split into named
stages so the theorems can speak about the intermediate matrix, right-hand
side, scales and solution vector; composed they are exactly the body of
`compute_pade_coeffs`. -/

/-- NumPy's `np.linspace(a, b, n)`: `n` evenly spaced points from `a` to
`b` inclusive (`[a]` for `n = 1`, empty for `n = 0`). -/
def linspace (a b : ℚ) (n : ℕ) : List ℚ :=
  if n = 1 then [a]
  else (List.range n).map (fun i : ℕ => a + (b - a) * (i : ℚ) / ((n : ℚ) - 1))

/-- Chebyshev nodes of the fitter: `theta = np.linspace(0, pi, num_points)`,
`v_vals = 0.5 * (1 - np.cos(theta))`. -/
def chebyshev_nodes (P : MathPrims) (num_points : ℕ) : List ℚ :=
  (linspace 0 P.pi num_points).map (fun θ => 1 / 2 * (1 - P.cos θ))

/-- The solver tolerance used by the fitter (`kh_numeric` default in
`pade_approximants.py`): `tol=1e-20`. -/
def padeTol : ℚ := 1e-20

/-- The solver iteration cap used by the fitter: `max_iter=1000`. -/
def padeIterMax : ℤ := 1000

/-- The rescaling constant `u_max = np.sqrt(2 * math.pi)`. -/
def u_maxQ (P : MathPrims) : ℚ := P.sqrt (2 * P.pi)

/-- Degree reduction of the fitter:
`used_degree = requested_degree if requested_degree % 2 == 1 else requested_degree - 1`. -/
def used_degree (requested_degree : ℕ) : ℕ :=
  if requested_degree % 2 = 1 then requested_degree else requested_degree - 1

/-- Number of quadratic terms: `M = (used_degree - 1) // 2`. -/
def fitM (requested_degree : ℕ) : ℕ := (used_degree requested_degree - 1) / 2

/-- The fit nodes `v_vals` (Chebyshev nodes in `[0,1]`). -/
def fit_v_vals (P : MathPrims) (num_points : ℕ) : List ℚ :=
  chebyshev_nodes P num_points

/-- The target function of the fit: `g(u) = kh_numeric(u ** 2)` with the
fitter's solver settings. -/
def fit_g (P : MathPrims) (u : ℚ) : ℚ := kh_numeric P (u ^ 2) padeTol padeIterMax

/-- `g_vals = np.array([kh_numeric(u ** 2) for u in u_vals])` where
`u_vals = u_max * v_vals`. -/
def fit_g_vals (P : MathPrims) (num_points : ℕ) : List ℚ :=
  ((fit_v_vals P num_points).map (fun v => u_maxQ P * v)).map (fit_g P)

/-- Row `i` of the design matrix `A`: columns `0..M` are
`u_max * v**(2j+1)` (numerator part), columns `M+1..2M` are
`-g_vals[i] * v**(2k)` for `k = 1..M` (denominator part). -/
def designRow (u_max g_i v : ℚ) (M : ℕ) : List ℚ :=
  (List.range (M + 1)).map (fun j => u_max * v ^ (2 * j + 1)) ++
    (List.range M).map (fun k => -g_i * v ^ (2 * (k + 1)))

/-- The design matrix `A` (shape `num_points x (2M+1)`). -/
def fitA (P : MathPrims) (requested_degree num_points : ℕ) : List (List ℚ) :=
  ((fit_v_vals P num_points).zip (fit_g_vals P num_points)).map
    (fun vg => designRow (u_maxQ P) vg.2 vg.1 (fitM requested_degree))

/-- The right-hand side `b = g_vals.copy()`. -/
def fit_b (P : MathPrims) (num_points : ℕ) : List ℚ := fit_g_vals P num_points

/-- Maximum absolute value of column `j` of `A`
(`np.max(np.abs(A), axis=0)` for one column).  On a zero-row matrix NumPy
raises `ValueError` (empty-axis reduction); that raise is modeled in
`compute_pade_coeffsE` below, and this value-level function (which yields
`0` there) is only used under `num_points ≥ 1`, where the two agree since
column entries are absolute values. -/
def colMaxAbs (A : List (List ℚ)) (j : ℕ) : ℚ :=
  (A.map (fun row => |row.getD j 0|)).foldr max 0

/-- Column scales: `col_scales = np.max(np.abs(A), axis=0)` followed by
`col_scales[col_scales == 0] = 1.0`. -/
def fitScales (P : MathPrims) (requested_degree num_points : ℕ) : List ℚ :=
  ((List.range (2 * fitM requested_degree + 1)).map
      (colMaxAbs (fitA P requested_degree num_points))).map
    (fun c => if c = 0 then 1 else c)

/-- The column-scaled matrix `A_scaled = A / col_scales`. -/
def fitAscaled (P : MathPrims) (requested_degree num_points : ℕ) : List (List ℚ) :=
  (fitA P requested_degree num_points).map
    (fun row => List.zipWith (fun a c => a / c) row (fitScales P requested_degree num_points))

/-- The unscaled solution `x = x_scaled / col_scales` where
`x_scaled, _, _, _ = np.linalg.lstsq(A_scaled, b)`.  The least-squares
solver itself is NumPy library code, taken as the parameter `lstsq`. -/
def fitX (P : MathPrims) (lstsq : List (List ℚ) → List ℚ → List ℚ)
    (requested_degree num_points : ℕ) : List ℚ :=
  List.zipWith (fun a c => a / c)
    (lstsq (fitAscaled P requested_degree num_points) (fit_b P num_points))
    (fitScales P requested_degree num_points)

/-- Result record of `compute_pade_coeffs`:
`(requested_degree, used_degree, p, q)`. -/
structure PadeCoeffs where
  requested : ℕ
  used : ℕ
  p : List ℚ
  q : List ℚ

/-- The fitter `compute_pade_coeffs(requested_degree, num_points)`:
`p = x[:M + 1]`, `q = x[M + 1:]`. -/
def compute_pade_coeffs (P : MathPrims) (lstsq : List (List ℚ) → List ℚ → List ℚ)
    (requested_degree num_points : ℕ) : PadeCoeffs :=
  { requested := requested_degree
    used := used_degree requested_degree
    p := (fitX P lstsq requested_degree num_points).take (fitM requested_degree + 1)
    q := (fitX P lstsq requested_degree num_points).drop (fitM requested_degree + 1) }

/-- Exception-aware embedding of `compute_pade_coeffs`: for
`num_points = 0` the column-scale computation
`np.max(np.abs(A), axis=0)` reduces over the empty row axis and raises
`ValueError`, so the fitter signals a zero-point request (no other
statement of the fitter can raise: the solver is only called on squared,
hence non-negative, inputs, and `lstsq` is library code); for
`num_points ≥ 1` the fitter returns normally. -/
def compute_pade_coeffsE (P : MathPrims) (lstsq : List (List ℚ) → List ℚ → List ℚ)
    (requested_degree num_points : ℕ) : Except Unit PadeCoeffs :=
  if num_points = 0 then .error ()
  else .ok (compute_pade_coeffs P lstsq requested_degree num_points)

/-! ### ErrorAnalyzer: `compute_errors` and the ranking loop of `main`
From `wave-disp-equation.py` lines 913-938 and 943-1005.  The reference
solver `kh_numeric` that `compute_errors` calls is passed as the parameter
`kh` (in the source it is the module-level function). -/

/-- Pointwise error of `compute_errors`: `0.0` if `exact_kh == 0`, else
`100.0 * abs(approx_kh - exact_kh) / abs(exact_kh)` (an absolute relative
error in percent). -/
def relErr (exact approx : ℚ) : ℚ :=
  if exact = 0 then 0 else 100 * |approx - exact| / |exact|

/-- Python's built-in `max` on a list (raises on `[]`; every caller in the
source passes a nonempty list, and the theorems below assume nonemptiness). -/
def pymax : List ℚ → ℚ
  | [] => 0
  | a :: rest => rest.foldl max a

/-- `compute_errors(func, k0h_vals)`: the list of pointwise errors, their
NumPy mean `np.mean(errors)`, the maximum `max(errors)`, and
`k0h_vals[errors.index(max_error)]` (first index attaining the maximum). -/
def compute_errors (kh func : ℚ → ℚ) (k0h_vals : List ℚ) : ℚ × ℚ × ℚ :=
  let errors := k0h_vals.map (fun val => relErr (kh val) (func val))
  let avg_error := errors.sum / (errors.length : ℚ)
  let max_error := pymax errors
  let idx_max := errors.indexOf max_error
  (avg_error, max_error, k0h_vals.getD idx_max 0)

/-- Modelled from the spec's words, for refinement comparison only (the
source is `compute_errors` above): per-point relative error `0` if the
reference value is below the absolute epsilon `1e-12` in magnitude (in
particular if it is `0`), else `|candidate - reference| / |reference|`;
aggregates are the arithmetic mean, the maximum, and the grid input at
which the maximum occurred. -/
def spec_relErr (exact approx : ℚ) : ℚ :=
  if |exact| < 1e-12 then 0 else |approx - exact| / |exact|

/-- Modelled from the spec's words, for refinement comparison only: the
analyzer aggregate built from `spec_relErr`. -/
def spec_analyze (kh func : ℚ → ℚ) (k0h_vals : List ℚ) : ℚ × ℚ × ℚ :=
  let errors := k0h_vals.map (fun val => spec_relErr (kh val) (func val))
  (errors.sum / (errors.length : ℚ), pymax errors,
    k0h_vals.getD (errors.indexOf (pymax errors)) 0)

/-- One row of the ranking table of `main`: a method name and its error
statistics, `none` when `compute_errors` raised for that method (the
`except` branch sets the statistics to `None`).  The wall-clock timing
column is not part of the embedding (real time). -/
structure RankEntry where
  name : String
  stats : Option (ℚ × ℚ × ℚ)

/-- Evaluation of a candidate over the whole grid with exception
propagation: the first grid point where the candidate raises (returns
`none`) aborts the evaluation, as a Python exception aborts the
`for val in k0h_vals` loop inside `compute_errors`. -/
def tryEval (func : ℚ → Option ℚ) : List ℚ → Option (List ℚ)
  | [] => some []
  | v :: vs =>
    match func v, tryEval func vs with
    | some y, some ys => some (y :: ys)
    | _, _ => none

/-- The `try: compute_errors(func, ...) except: None` of the ranking loop:
a candidate that raises on some grid point (embedded as an
`Option`-valued candidate returning `none` there) gets `none` statistics;
otherwise its `compute_errors` result. -/
def analyze (kh : ℚ → ℚ) (func : ℚ → Option ℚ) (vals : List ℚ) :
    Option (ℚ × ℚ × ℚ) :=
  match tryEval func vals with
  | none => none
  | some _ => some (compute_errors kh (fun v => (func v).getD 0) vals)

/-- The sort key comparison of `main`:
`key = (inf if avg is None else avg, inf if max is None else max)` compared
lexicographically, as Python's `sorted` compares the key tuples. -/
def rankKeyLe (x y : RankEntry) : Bool :=
  match x.stats, y.stats with
  | none, none => true
  | none, some _ => false
  | some _, none => true
  | some a, some b => decide (a.1 < b.1 ∨ (a.1 = b.1 ∧ a.2.1 ≤ b.2.1))

/-- The ranking loop of `main`: analyze every candidate (never aborting on
a raising one), then `sorted(results, key=...)` (a stable sort, embedded
with `List.mergeSort`). -/
def rank (kh : ℚ → ℚ) (cands : List (String × (ℚ → Option ℚ)))
    (vals : List ℚ) : List RankEntry :=
  (cands.map (fun c => { name := c.1, stats := analyze kh c.2 vals : RankEntry })).mergeSort
    rankKeyLe

/-! ### FormulaCatalog
The dispatch functions `pade2025` (lines 161-223) and `carvalho2025`
(lines 229-320) of `wave-disp-equation.py`, and the catalogue entries that
carry an `if k0h == 0: return 0.0` guard. -/

/-- The generated Pade dispatch `pade2025(k0h, formula)`: an `if/elif`
chain on `formula` in `1..13`, with `else: return -1`. -/
def pade2025 (P : MathPrims) (k0h : ℚ) (formula : ℤ) : ℚ :=
  if formula = 1 then
    (1.00649052194019 * P.rpow k0h 0.5 + 0.423646282789217 * P.rpow k0h 1.5 + 0.175406661440005 * P.rpow k0h 2.5) / (0.306955955676234 * P.rpow k0h 1.0 + 0.0328975279727171 * P.rpow k0h 2.0 + 1)
  else if formula = 2 then
    (0.998980252114366 * P.rpow k0h 0.5 + 0.0240176797055886 * P.rpow k0h 1.5 + 0.102524886754552 * P.rpow k0h 2.5 + 0.0317327085938995 * P.rpow k0h 3.5) / (-0.150350405960952 * P.rpow k0h 1.0 + 0.112157962910113 * P.rpow k0h 2.0 + 0.00294483072586115 * P.rpow k0h 3.0 + 1)
  else if formula = 3 then
    (1.00006668638419 * P.rpow k0h 0.5 + 0.322645945302282 * P.rpow k0h 1.5 + 0.0860384450810725 * P.rpow k0h 2.5 + 0.051143347041175 * P.rpow k0h 3.5 + 0.0153420957423937 * P.rpow k0h 4.5) / (0.157166943736625 * P.rpow k0h 1.0 + 0.0245168267924732 * P.rpow k0h 2.0 + 0.0462567432956417 * P.rpow k0h 3.0 + 0.00175392506101448 * P.rpow k0h 4.0 + 1)
  else if formula = 4 then
    (0.999996682596798 * P.rpow k0h 0.5 - 0.0889915717930786 * P.rpow k0h 1.5 + 0.147076211695128 * P.rpow k0h 2.5 + 0.0123471280480147 * P.rpow k0h 3.5 + 0.00866458140843225 * P.rpow k0h 4.5 + 0.00204463718201973 * P.rpow k0h 5.5) / (-0.255723982020183 * P.rpow k0h 1.0 + 0.159493904911975 * P.rpow k0h 2.0 - 0.0106101311382749 * P.rpow k0h 3.0 + 0.00784491418150148 * P.rpow k0h 4.0 + 0.000184273251439305 * P.rpow k0h 5.0 + 1)
  else if formula = 5 then
    (0.999998218345888 * P.rpow k0h 0.5 - 0.424362176674708 * P.rpow k0h 1.5 + 0.171875463304611 * P.rpow k0h 2.5 - 0.0357487982640122 * P.rpow k0h 3.5 + 0.00410625374333464 * P.rpow k0h 4.5 - 0.000978753693904127 * P.rpow k0h 5.5 - 0.000636955605769902 * P.rpow k0h 6.5) / (-0.591069429462395 * P.rpow k0h 1.0 + 0.240083348894323 * P.rpow k0h 2.0 - 0.0617593442909405 * P.rpow k0h 3.0 + 0.0104920694265126 * P.rpow k0h 4.0 - 0.00231970889331938 * P.rpow k0h 5.0 - 5.65924775627923e-05 * P.rpow k0h 6.0 + 1)
  else if formula = 6 then
    (1.0000000012405 * P.rpow k0h 0.5 - 0.350251200743747 * P.rpow k0h 1.5 + 0.229153326540668 * P.rpow k0h 2.5 - 0.0205204312544928 * P.rpow k0h 3.5 + 0.0133231478358294 * P.rpow k0h 4.5 + 0.0010401274983046 * P.rpow k0h 5.5 + 0.00048671850792775 * P.rpow k0h 6.5 + 8.40088474488992e-05 * P.rpow k0h 7.5) / (-0.516917882097882 * P.rpow k0h 1.0 + 0.284751410622371 * P.rpow k0h 2.0 - 0.0555622365621819 * P.rpow k0h 3.0 + 0.0161071584333013 * P.rpow k0h 4.0 - 0.000808341017586247 * P.rpow k0h 5.0 + 0.000381511960690599 * P.rpow k0h 6.0 + 6.40735447518177e-06 * P.rpow k0h 7.0 + 1)
  else if formula = 7 then
    (0.999999995257458 * P.rpow k0h 0.5 - 0.543811114837314 * P.rpow k0h 1.5 + 0.297774393256421 * P.rpow k0h 2.5 - 0.0648661921727468 * P.rpow k0h 3.5 + 0.0174768559302056 * P.rpow k0h 4.5 - 0.00151793039097231 * P.rpow k0h 5.5 + 0.000295750461715408 * P.rpow k0h 6.5 - 4.1567697098083e-06 * P.rpow k0h 7.5 - 1.62498860684328e-05 * P.rpow k0h 8.5) / (-0.710477969437912 * P.rpow k0h 1.0 + 0.385633880896532 * P.rpow k0h 2.0 - 0.110812474410256 * P.rpow k0h 3.0 + 0.0270500418196004 * P.rpow k0h 4.0 - 0.00394602590941703 * P.rpow k0h 5.0 + 0.000553921270262525 * P.rpow k0h 6.0 - 6.65533846723705e-05 * P.rpow k0h 7.0 - 1.24656671282763e-06 * P.rpow k0h 8.0 + 1)
  else if formula = 8 then
    (1.00000000020126 * P.rpow k0h 0.5 - 0.388439115555858 * P.rpow k0h 1.5 + 0.310223332529737 * P.rpow k0h 2.5 - 0.0496321949056331 * P.rpow k0h 3.5 + 0.0293825301580729 * P.rpow k0h 4.5 - 0.000149900084396432 * P.rpow k0h 5.5 + 0.00139739652490532 * P.rpow k0h 6.5 + 0.000171592322622253 * P.rpow k0h 7.5 + 4.94349555930422e-05 * P.rpow k0h 8.5 + 5.36329658499187e-06 * P.rpow k0h 9.5) / (-0.555105771884377 * P.rpow k0h 1.0 + 0.372185262898829 * P.rpow k0h 2.0 - 0.0980736559689507 * P.rpow k0h 3.0 + 0.036689986163131 * P.rpow k0h 4.0 - 0.00440840853967443 * P.rpow k0h 5.0 + 0.00139722437126806 * P.rpow k0h 6.0 - 3.64106868131082e-06 * P.rpow k0h 7.0 + 2.72315576473091e-05 * P.rpow k0h 8.0 + 3.80576928768955e-07 * P.rpow k0h 9.0 + 1)
  else if formula = 9 then
    (1.00000000054683 * P.rpow k0h 0.5 - 0.302517970258141 * P.rpow k0h 1.5 + 0.216194173804703 * P.rpow k0h 2.5 - 0.00911867675112112 * P.rpow k0h 3.5 + 0.0131923444114312 * P.rpow k0h 4.5 + 0.00197230469011907 * P.rpow k0h 5.5 + 0.000583685774943952 * P.rpow k0h 6.5 + 0.000117061426950459 * P.rpow k0h 7.5 + 2.16577683514269e-05 * P.rpow k0h 8.5 - 4.06436904033371e-06 * P.rpow k0h 9.5 - 1.35655741732812e-07 * P.rpow k0h 10.5) / (-0.469184609052338 * P.rpow k0h 1.0 + 0.263835664763448 * P.rpow k0h 2.0 - 0.0421256860069538 * P.rpow k0h 3.0 + 0.0141905686336732 * P.rpow k0h 4.0 + 0.000171234247175628 * P.rpow k0h 5.0 + 0.000284037180073895 * P.rpow k0h 6.0 + 7.23728845968762e-05 * P.rpow k0h 7.0 - 3.33925175755566e-06 * P.rpow k0h 8.0 - 1.1196042731312e-06 * P.rpow k0h 9.0 - 6.10361897619335e-09 * P.rpow k0h 10.0 + 1)
  else if formula = 10 then
    (1.00000000069543 * P.rpow k0h 0.5 - 0.334954381847524 * P.rpow k0h 1.5 + 0.229997336203832 * P.rpow k0h 2.5 - 0.0170932674073579 * P.rpow k0h 3.5 + 0.0142286437913579 * P.rpow k0h 4.5 + 0.00157766182461221 * P.rpow k0h 5.5 + 0.000555414435408452 * P.rpow k0h 6.5 + 0.000109241385068583 * P.rpow k0h 7.5 + 2.04181414663277e-05 * P.rpow k0h 8.5 - 4.47936721320148e-06 * P.rpow k0h 9.5 + 7.20245847805242e-08 * P.rpow k0h 10.5 + 2.27591359161482e-09 * P.rpow k0h 11.5) / (-0.501621014271701 * P.rpow k0h 1.0 + 0.283044819037831 * P.rpow k0h 2.0 - 0.0523102821262626 * P.rpow k0h 3.0 + 0.0164455383396673 * P.rpow k0h 4.0 - 0.000365622576684072 * P.rpow k0h 5.0 + 0.000304882740985283 * P.rpow k0h 6.0 + 7.15596032735346e-05 * P.rpow k0h 7.0 - 5.64260090297976e-06 * P.rpow k0h 8.0 - 7.22847827757772e-07 * P.rpow k0h 9.0 + 3.16954475149092e-08 * P.rpow k0h 10.0 - 4.18523172095159e-11 * P.rpow k0h 11.0 + 1)
  else if formula = 11 then
    (1.00000000021134 * P.rpow k0h 0.5 - 0.439538511010958 * P.rpow k0h 1.5 + 0.262071966075091 * P.rpow k0h 2.5 - 0.0352260757847662 * P.rpow k0h 3.5 + 0.0136888861362354 * P.rpow k0h 4.5 + 0.00119983590894612 * P.rpow k0h 5.5 + 0.000306132196963262 * P.rpow k0h 6.5 + 9.3344593984067e-05 * P.rpow k0h 7.5 + 1.13485236045952e-05 * P.rpow k0h 8.5 - 2.19033671564094e-06 * P.rpow k0h 9.5 - 1.52303393432862e-07 * P.rpow k0h 10.5 + 3.29680588537e-08 * P.rpow k0h 11.5 - 3.59648926971857e-09 * P.rpow k0h 12.5) / (-0.606205166733527 * P.rpow k0h 1.0 + 0.332550449569891 * P.rpow k0h 2.0 - 0.0755002415059252 * P.rpow k0h 3.0 + 0.0186169006337531 * P.rpow k0h 4.0 - 0.000624409536143469 * P.rpow k0h 5.0 + 0.000110698204767146 * P.rpow k0h 6.0 + 7.31839474973857e-05 * P.rpow k0h 7.0 - 4.17221912299122e-06 * P.rpow k0h 8.0 - 1.00985652913037e-06 * P.rpow k0h 9.0 + 1.15600808535017e-07 * P.rpow k0h 10.0 - 7.31093937337407e-09 * P.rpow k0h 11.0 - 3.576922099426e-10 * P.rpow k0h 12.0 + 1)
  else if formula = 12 then
    (1.00000000034658 * P.rpow k0h 0.5 - 0.35765423836608 * P.rpow k0h 1.5 + 0.220474157851537 * P.rpow k0h 2.5 - 0.0143101981637556 * P.rpow k0h 3.5 + 0.0106882664277003 * P.rpow k0h 4.5 + 0.00177809831685665 * P.rpow k0h 5.5 + 0.000425551341246499 * P.rpow k0h 6.5 + 8.39454668343144e-05 * P.rpow k0h 7.5 + 1.68918586510378e-05 * P.rpow k0h 8.5 - 3.47736023040874e-06 * P.rpow k0h 9.5 + 1.1564308170262e-07 * P.rpow k0h 10.5 - 5.38824115168048e-09 * P.rpow k0h 11.5 + 2.55400838802905e-09 * P.rpow k0h 12.5 - 5.77246087402385e-10 * P.rpow k0h 13.5) / (-0.524320887192481 * P.rpow k0h 1.0 + 0.277305164506462 * P.rpow k0h 2.0 - 0.0478782214771677 * P.rpow k0h 3.0 + 0.0124223110237922 * P.rpow k0h 4.0 + 0.00037129622072912 * P.rpow k0h 5.0 + 0.000158246646088704 * P.rpow k0h 6.0 + 5.24876551697954e-05 * P.rpow k0h 7.0 - 1.38557325635002e-06 * P.rpow k0h 8.0 - 7.96232034767084e-07 * P.rpow k0h 9.0 + 8.35464703802028e-09 * P.rpow k0h 10.0 + 1.1834526426828e-08 * P.rpow k0h 11.0 - 1.48873774124982e-09 * P.rpow k0h 12.0 - 5.59846037648501e-11 * P.rpow k0h 13.0 + 1)
  else if formula = 13 then
    (1.00000000043044 * P.rpow k0h 0.5 - 0.341214787680155 * P.rpow k0h 1.5 + 0.216029315236116 * P.rpow k0h 2.5 - 0.0116443516054976 * P.rpow k0h 3.5 + 0.0108812744435703 * P.rpow k0h 4.5 + 0.00184089184824533 * P.rpow k0h 5.5 + 0.000466873470691525 * P.rpow k0h 6.5 + 8.83178779786945e-05 * P.rpow k0h 7.5 + 1.82969284264395e-05 * P.rpow k0h 8.5 - 3.70984687913519e-06 * P.rpow k0h 9.5 + 1.15252770559743e-07 * P.rpow k0h 10.5 + 4.05866020101675e-10 * P.rpow k0h 11.5 + 1.00682972256747e-09 * P.rpow k0h 12.5 - 1.03386709606535e-10 * P.rpow k0h 13.5 + 2.54165346162395e-11 * P.rpow k0h 14.5) / (-0.507881432557414 * P.rpow k0h 1.0 + 0.27012036160695 * P.rpow k0h 2.0 - 0.0445169260696995 * P.rpow k0h 3.0 + 0.0122182321499095 * P.rpow k0h 4.0 + 0.00039913233839911 * P.rpow k0h 5.0 + 0.000190210573213751 * P.rpow k0h 6.0 + 5.3696821111172e-05 * P.rpow k0h 7.0 - 1.69377956737975e-06 * P.rpow k0h 8.0 - 7.45889615784955e-07 * P.rpow k0h 9.0 + 1.5632250659559e-09 * P.rpow k0h 10.0 + 1.19811786331838e-08 * P.rpow k0h 11.0 - 1.3440816876962e-09 * P.rpow k0h 12.0 + 1.13151579925971e-10 * P.rpow k0h 13.0 + 1.46210486272321e-12 * P.rpow k0h 14.0 + 1)
  else
    -1

/-- The GEP dispatch `carvalho2025(k0h, formula)`: an `if/elif` chain on
`formula` in `1..20`, with `else: return -1`.  The three range cases of
`formula == 2` cover every real `k0h`. -/
def carvalho2025 (P : MathPrims) (k0h : ℚ) (formula : ℤ) : ℚ :=
  if formula = 1 then
    let kh_Carv := k0h / P.tanh (k0h / (P.sqrt (P.tanh (P.sqrt (P.sinh k0h))) * P.rpow (P.tanh k0h) 0.25))
    (kh_Carv ^ 2 + k0h * (P.cosh kh_Carv) ^ 2) / (kh_Carv + P.sinh kh_Carv * P.cosh kh_Carv)
  else if formula = 2 then
    if k0h ≤ 1.2 then
      P.sqrt (1 / k0h - P.exp (P.rpow k0h 1.962983 - 6.242035)) / (1 / k0h - 0.168659434)
    else if k0h ≤ 2.35 then
      (k0h + P.rpow (k0h / 70.13327717) (k0h ^ 3)) / P.exp (P.log (P.rpow 4.89859 k0h) / (1.134674 - P.rpow 10 k0h))
    else
      k0h * P.exp (1.596671172 * k0h / P.rpow 10 k0h)
  else if formula = 3 then
    k0h / P.tanh (k0h / (P.sqrt (P.tanh (P.sqrt (P.sinh k0h))) * P.rpow (P.tanh k0h) 0.25))
  else if formula = 4 then
    k0h / P.tanh (k0h / P.tanh (k0h / P.tanh (k0h / P.sinh (P.tanh (P.sqrt k0h)))))
  else if formula = 5 then
    k0h / P.tanh (P.rpow 1.199315 (P.rpow k0h 1.047086) * P.rpow k0h 0.499947)
  else if formula = 6 then
    k0h / P.tanh (P.rpow 1.1999 (P.rpow k0h 1.045) * P.sqrt k0h)
  else if formula = 7 then
    k0h / P.tanh (k0h / P.tanh (k0h / P.sinh (P.tanh (P.sqrt k0h))))
  else if formula = 8 then
    k0h / P.tanh (P.sinh (P.sqrt (if k0h ≥ 3.04425 then 3.04425 else k0h)) * P.cosh (k0h / 5.194671))
  else if formula = 9 then
    k0h / (P.sqrt (P.tanh (P.sqrt (P.sinh k0h))) * P.rpow (P.tanh k0h) 0.25)
  else if formula = 10 then
    k0h / P.tanh (P.rpow (6 / 5) k0h * P.sqrt k0h)
  else if formula = 11 then
    k0h / P.tanh (P.sqrt (P.rpow 1.438995 k0h * k0h))
  else if formula = 12 then
    k0h / P.tanh (k0h / P.tanh (P.sinh (P.sqrt k0h)))
  else if formula = 13 then
    k0h + P.sqrt k0h / (P.rpow 4.35144 k0h + 0.718409 / P.rpow (1 / k0h) 0.437408)
  else if formula = 14 then
    k0h / P.rpow (P.tanh (P.sqrt k0h)) (1 / P.cosh k0h)
  else if formula = 15 then
    k0h / (P.sqrt (P.tanh k0h) * P.tanh (k0h + 1 / P.sqrt k0h))
  else if formula = 16 then
    k0h / P.rpow (P.tanh k0h) ((k0h + 4) / 8)
  else if formula = 17 then
    k0h / P.rpow (P.rpow (P.tanh k0h) (k0h / P.tanh k0h)) 0.5
  else if formula = 18 then
    k0h / P.tanh (P.sinh (P.sqrt k0h))
  else if formula = 19 then
    P.sqrt k0h + k0h ^ 2 / (k0h + 4)
  else if formula = 20 then
    k0h / P.rpow (P.rpow (P.sqrt (P.tanh k0h)) (P.tanh k0h + 4)) 0.25
  else
    -1

/-- The `coth` lambda of `YamaguchiNonaka`:
`cosh(x)/sinh(x) if x != 0 else float('inf')`. -/
def coth (P : MathPrims) (x : ℚ) : ℚ :=
  if x ≠ 0 then P.cosh x / P.sinh x else P.inf

/-- `YamaguchiNonaka(k0h, formula)` (lines 326-379): guarded by
`if k0h == 0: return 0.0` before the formula dispatch. -/
def YamaguchiNonaka (P : MathPrims) (k0h : ℚ) (formula : ℤ) : ℚ :=
  if k0h = 0 then 0
  else if formula = 1 then k0h * P.rpow (coth P (P.rpow k0h (1.485 / 2))) (1 / 1.485)
  else if formula = 2 then k0h / P.tanh (k0h * P.rpow (coth P (P.rpow k0h (1.378 / 2))) (1 / 1.378))
  else if formula = 3 then k0h / P.tanh (P.sqrt k0h * (1 + P.sqrt k0h / (2 * P.pi)))
  else if formula = 4 then k0h * P.rpow (1 + 1 / k0h ^ 2) 0.25
  else if formula = 5 then k0h * P.rpow (coth P (P.rpow k0h (1.434 / 2))) (1 / 1.434)
  else if formula = 6 then k0h / P.tanh (P.sqrt (P.sinh k0h))
  else if formula = 7 then k0h / P.rpow (1 - P.exp (-P.rpow k0h (2.445 / 2))) (1 / 2.445)
  else if formula = 8 then k0h / P.tanh (k0h * P.rpow (coth P (P.rpow k0h (1.310 / 2))) (1 / 1.310))
  else if formula = 9 then k0h / P.tanh (P.rpow 1.1965 k0h * P.sqrt k0h)
  else if formula = 10 then k0h / P.tanh (k0h / (P.sqrt (P.tanh (P.sqrt (P.sinh k0h))) * P.rpow (P.tanh k0h) 0.25))
  else -1

/-- `beji2013(k0h)` (lines 587-606), zero-input guarded. -/
def beji2013 (P : MathPrims) (k0h : ℚ) : ℚ :=
  if k0h = 0 then 0
  else k0h * (1 + P.rpow k0h 1.09 * P.exp (-(1.55 + 1.30 * k0h + 0.216 * k0h ^ 2))) / P.sqrt (P.tanh k0h)

/-- `Simarro_2013(k0h)` (lines 381-403), zero-input guarded; one Newton
correction on top of the Beji estimate. -/
def Simarro_2013 (P : MathPrims) (k0h : ℚ) : ℚ :=
  if k0h = 0 then 0
  else
    let kh_Beji := beji2013 P k0h
    (kh_Beji ^ 2 + k0h * (P.cosh kh_Beji) ^ 2) / (kh_Beji + P.sinh kh_Beji * P.cosh kh_Beji)

/-- `vatankhah2013_1(k0h)` (lines 405-428), zero-input guarded. -/
def vatankhah2013_1 (P : MathPrims) (k0h : ℚ) : ℚ :=
  if k0h = 0 then 0
  else
    let partA := (k0h + k0h ^ 2 * P.exp (-(3.2 + P.rpow k0h 1.65))) / P.sqrt (P.tanh k0h)
    let partB := k0h * P.rpow (1 - P.exp (-P.rpow k0h 0.132)) (5.0532 + 2.1584 * P.rpow k0h 1.505)
    partA + partB

/-- `vatankhah2013_2(k0h)` (lines 430-449), zero-input guarded. -/
def vatankhah2013_2 (P : MathPrims) (k0h : ℚ) : ℚ :=
  if k0h = 0 then 0
  else (k0h + k0h ^ 2 * P.exp (-1.835 - 1.225 * P.rpow k0h 1.35)) / P.sqrt (P.tanh k0h)

/-- `yu2014(k0h)` (lines 653-675), zero-input guarded (`a = k0h`,
`if a == 0`). -/
def yu2014 (P : MathPrims) (k0h : ℚ) : ℚ :=
  let a := k0h
  if a = 0 then 0
  else
    let term := 2.0 * P.rpow (P.tanh a) 2.5 - 1.0
    a / P.sqrt (P.tanh a) + 0.0527 * P.sin (P.acos term)

/-- `guo2002(k0h)` (lines 700-720), zero-input guarded. -/
def guo2002 (P : MathPrims) (k0h : ℚ) : ℚ :=
  if k0h = 0 then 0
  else
    let m : ℚ := 2.4901
    k0h / P.rpow (1.0 - P.exp (-P.rpow k0h (m / 2))) (1.0 / m)

/-! ### The exact dispersion relation over the reals
The data model of the spec: the solver's contract is to compute the
unique non-negative root `y` of `x = y * tanh(y)`.  This relation is
stated over `ℝ` with the genuine `Real.tanh`. -/

/-- `y` is the non-negative root of the dispersion relation
`x = y * tanh(y)` — the value `kh_numeric` is specified to compute. -/
def IsDispersionRoot (x y : ℝ) : Prop := 0 ≤ y ∧ x = y * Real.tanh y

/-! ### Concrete instantiations used by the witness theorems
Any instantiation of the abstract primitives satisfies the quantified
theorems below; these computable stand-ins let witnesses evaluate. -/

/-- A computable stand-in for the primitives (witnesses only). -/
def P0 : MathPrims where
  pi := 0
  sqrt := id
  tanh := id
  sinh := id
  cosh := fun _ => 1
  exp := id
  log := id
  sin := id
  acos := id
  cos := fun _ => 1
  rpow := fun _ _ => 1
  inf := 0

/-- A least-squares stand-in returning a fixed vector (witnesses only). -/
def constSolver (x : List ℚ) : List (List ℚ) → List ℚ → List ℚ := fun _ _ => x

/-! ## Shape lemmas for the fitter -/

theorem linspace_length (a b : ℚ) (n : ℕ) : (linspace a b n).length = n := by
  unfold linspace
  split
  · simp [*]
  · rw [List.length_map, List.length_range]

theorem chebyshev_nodes_length (P : MathPrims) (n : ℕ) :
    (chebyshev_nodes P n).length = n := by
  simp [chebyshev_nodes, linspace_length]

theorem fit_v_vals_length (P : MathPrims) (n : ℕ) : (fit_v_vals P n).length = n :=
  chebyshev_nodes_length P n

theorem fit_g_vals_length (P : MathPrims) (n : ℕ) : (fit_g_vals P n).length = n := by
  simp [fit_g_vals, fit_v_vals_length]

theorem designRow_length (u g v : ℚ) (M : ℕ) :
    (designRow u g v M).length = 2 * M + 1 := by
  simp [designRow]
  omega

theorem fitA_length (P : MathPrims) (d n : ℕ) : (fitA P d n).length = n := by
  simp [fitA, fit_v_vals_length, fit_g_vals_length]

theorem fitScales_length (P : MathPrims) (d n : ℕ) :
    (fitScales P d n).length = 2 * fitM d + 1 := by
  simp [fitScales]

theorem fitX_length (P : MathPrims) (lstsq : List (List ℚ) → List ℚ → List ℚ)
    (d n : ℕ) (hl : (lstsq (fitAscaled P d n) (fit_b P n)).length = 2 * fitM d + 1) :
    (fitX P lstsq d n).length = 2 * fitM d + 1 := by
  simp [fitX, hl, fitScales_length]

/-! ## Claim C3 -/

/-- C3: for every `requestedDegree ≥ 1` the fitter's `usedDegree` is the
nearest odd integer `≤ requestedDegree` (even requests reduced by one) —
in particular requesting 4 uses 3 and requesting 5 uses 5 — and with
`M = (usedDegree - 1)/2` the returned numerator coefficients `p` have
length `M + 1` and the denominator coefficients `q` length `M` (given
that the least-squares solver returns one entry per column of the
system, as NumPy's `lstsq` does). -/
theorem c3_degree_reduction_and_lengths (P : MathPrims)
    (lstsq : List (List ℚ) → List ℚ → List ℚ) (d n : ℕ) (hd : 1 ≤ d)
    (hl : (lstsq (fitAscaled P d n) (fit_b P n)).length = 2 * fitM d + 1) :
    ((compute_pade_coeffs P lstsq d n).used % 2 = 1 ∧
        (compute_pade_coeffs P lstsq d n).used ≤ d ∧
        (∀ e : ℕ, e % 2 = 1 → e ≤ d → e ≤ (compute_pade_coeffs P lstsq d n).used)) ∧
      (compute_pade_coeffs P lstsq d n).used = 2 * fitM d + 1 ∧
      (compute_pade_coeffs P lstsq 4 n).used = 3 ∧
      (compute_pade_coeffs P lstsq 5 n).used = 5 ∧
      (compute_pade_coeffs P lstsq d n).p.length = fitM d + 1 ∧
      (compute_pade_coeffs P lstsq d n).q.length = fitM d := by
  have hx := fitX_length P lstsq d n hl
  refine ⟨⟨?_, ?_, ?_⟩, ?_, rfl, rfl, ?_, ?_⟩
  · show used_degree d % 2 = 1
    unfold used_degree
    split <;> omega
  · show used_degree d ≤ d
    unfold used_degree
    split <;> omega
  · intro e he hed
    show e ≤ used_degree d
    unfold used_degree
    split <;> omega
  · show used_degree d = 2 * fitM d + 1
    unfold fitM used_degree
    split <;> omega
  · show ((fitX P lstsq d n).take (fitM d + 1)).length = fitM d + 1
    rw [List.length_take, hx]
    omega
  · show ((fitX P lstsq d n).drop (fitM d + 1)).length = fitM d
    rw [List.length_drop, hx]
    omega

/-- Witness for C3 at `requestedDegree = 5`, `numPoints = 2`. -/
theorem c3_witness :
    1 ≤ 5 ∧
      (compute_pade_coeffs P0 (constSolver (List.replicate 5 0)) 5 2).p.length =
        fitM 5 + 1 :=
  ⟨by norm_num,
    (c3_degree_reduction_and_lengths P0 (constSolver (List.replicate 5 0)) 5 2
        (by norm_num) rfl).2.2.2.2.1⟩

/-! ## Claim C10 -/

/-- C10: for every `k0h` and every formula selector outside the
documented range the catalogue dispatchers return the sentinel `-1`
instead of raising: `pade2025` for `formula` outside `1..13` and
`carvalho2025` for `formula` outside `1..20`. -/
theorem c10_dispatch_sentinel (P : MathPrims) (k0h : ℚ) (formula : ℤ) :
    (¬(1 ≤ formula ∧ formula ≤ 13) → pade2025 P k0h formula = -1) ∧
      (¬(1 ≤ formula ∧ formula ≤ 20) → carvalho2025 P k0h formula = -1) := by
  constructor
  · intro h
    unfold pade2025
    rw [if_neg (show ¬formula = 1 by omega), if_neg (show ¬formula = 2 by omega),
      if_neg (show ¬formula = 3 by omega), if_neg (show ¬formula = 4 by omega),
      if_neg (show ¬formula = 5 by omega), if_neg (show ¬formula = 6 by omega),
      if_neg (show ¬formula = 7 by omega), if_neg (show ¬formula = 8 by omega),
      if_neg (show ¬formula = 9 by omega), if_neg (show ¬formula = 10 by omega),
      if_neg (show ¬formula = 11 by omega), if_neg (show ¬formula = 12 by omega),
      if_neg (show ¬formula = 13 by omega)]
  · intro h
    unfold carvalho2025
    rw [if_neg (show ¬formula = 1 by omega), if_neg (show ¬formula = 2 by omega),
      if_neg (show ¬formula = 3 by omega), if_neg (show ¬formula = 4 by omega),
      if_neg (show ¬formula = 5 by omega), if_neg (show ¬formula = 6 by omega),
      if_neg (show ¬formula = 7 by omega), if_neg (show ¬formula = 8 by omega),
      if_neg (show ¬formula = 9 by omega), if_neg (show ¬formula = 10 by omega),
      if_neg (show ¬formula = 11 by omega), if_neg (show ¬formula = 12 by omega),
      if_neg (show ¬formula = 13 by omega), if_neg (show ¬formula = 14 by omega),
      if_neg (show ¬formula = 15 by omega), if_neg (show ¬formula = 16 by omega),
      if_neg (show ¬formula = 17 by omega), if_neg (show ¬formula = 18 by omega),
      if_neg (show ¬formula = 19 by omega), if_neg (show ¬formula = 20 by omega)]

/-- Witness for C10 at selectors `0` and `21`. -/
theorem c10_witness :
    ¬((1:ℤ) ≤ 0 ∧ (0:ℤ) ≤ 13) ∧ pade2025 P0 1 0 = -1 ∧
      carvalho2025 P0 1 21 = -1 :=
  ⟨by omega, (c10_dispatch_sentinel P0 1 0).1 (by omega),
    (c10_dispatch_sentinel P0 1 21).2 (by omega)⟩

/-! ## Claim C7 -/

/-- C7: at input `x = 0` every component returns `0.0`: the solver is
special-cased before the iteration (both in the value-level and in the
exception-aware embedding), the evaluator built from any fitted
coefficients returns `ok 0` (using the primitive fact `sqrt 0 = 0` and
matched coefficient lengths), and every catalogue formula that carries a
zero-input guard returns `0`. -/
theorem c7_zero_input (P : MathPrims) (tol : ℚ) (it formula : ℤ) (p q : List ℚ)
    (hsq : P.sqrt 0 = 0) (hq : q.length = p.length - 1) :
    kh_numeric P 0 tol it = 0 ∧
      kh_numericE P 0 tol it = .ok 0 ∧
      pade_approximation P 0 p q = .ok 0 ∧
      YamaguchiNonaka P 0 formula = 0 ∧
      Simarro_2013 P 0 = 0 ∧
      vatankhah2013_1 P 0 = 0 ∧
      vatankhah2013_2 P 0 = 0 ∧
      beji2013 P 0 = 0 ∧
      yu2014 P 0 = 0 ∧
      guo2002 P 0 = 0 := by
  refine ⟨by simp [kh_numeric], by simp [kh_numericE], ?_,
    by simp [YamaguchiNonaka], by simp [Simarro_2013], by simp [vatankhah2013_1],
    by simp [vatankhah2013_2], by simp [beji2013], by simp [yu2014],
    by simp [guo2002]⟩
  have hq2 : ¬(q.length < p.length - 1) := by omega
  simp [pade_approximation, hq2, hsq]

/-- Witness for C7 with the degree-1 coefficient pair `p = [1]`, `q = []`. -/
theorem c7_witness :
    P0.sqrt 0 = 0 ∧ ([] : List ℚ).length = [(1:ℚ)].length - 1 ∧
      pade_approximation P0 0 [1] [] = .ok 0 :=
  ⟨rfl, rfl, (c7_zero_input P0 1 7 3 [1] [] rfl rfl).2.2.1⟩

/-! ## Claim C9 -/

/-- C9 counterexample: invalid inputs are not always signaled.  A
non-positive `maxIter` (here `0`) and a non-positive `tol` (here `-1`)
are silently accepted by the solver, which returns a computed value; and
a `q` longer than `len(p) - 1` (a length mismatch) is silently accepted
by the evaluator. -/
theorem c9_counterexample :
    kh_numericE P0 1 1 0 = .ok 1 ∧ kh_numericE P0 1 (-1) 5 = .ok 1 ∧
      pade_approximation P0 1 [1] [2, 3] = .ok 0 := by
  refine ⟨by norm_num [kh_numericE, newtonLoop, initGuess, P0],
    by norm_num [kh_numericE, newtonLoop, newtonStep, initGuess, P0], ?_⟩
  norm_num [pade_approximation, P0, List.range_succ]

/-- C9 (amended): a negative `x` to the solver or the evaluator is
signaled (`math.sqrt` raises a domain error), a `q` shorter than
`len(p) - 1` raises an `IndexError`, and a zero `numPoints` is signaled
by the fitter (`np.max(np.abs(A), axis=0)` raises `ValueError` reducing
over the empty row axis); but non-positive `tol` or `maxIter` are
silently accepted — the solver returns its best-effort estimate, in
particular the bare initial guess when `maxIter ≤ 0` — and a well-formed
or over-long `q` is silently accepted by the evaluator. -/
theorem c9_invalid_inputs (P : MathPrims)
    (lstsq : List (List ℚ) → List ℚ → List ℚ) (x tol : ℚ) (it : ℤ) (d n : ℕ)
    (p q : List ℚ) :
    (x < 0 → kh_numericE P x tol it = .error ()) ∧
      (x < 0 → pade_approximation P x p q = .error ()) ∧
      (0 ≤ x → q.length < p.length - 1 → pade_approximation P x p q = .error ()) ∧
      (0 ≤ x → ¬(q.length < p.length - 1) →
        (pade_approximation P x p q).isOk = true) ∧
      (0 < x → it ≤ 0 → kh_numericE P x tol it = .ok (initGuess P x)) ∧
      compute_pade_coeffsE P lstsq d 0 = .error () ∧
      (1 ≤ n →
        compute_pade_coeffsE P lstsq d n = .ok (compute_pade_coeffs P lstsq d n)) := by
  refine ⟨fun hx => ?_, fun hx => ?_, fun hx hq => ?_, fun hx hq => ?_,
    fun hx hit => ?_, rfl, fun hn => ?_⟩
  · have hxne : x ≠ 0 := ne_of_lt hx
    simp [kh_numericE, hxne, hx]
  · simp [pade_approximation, hx]
  · simp [pade_approximation, not_lt.mpr hx, hq]
  · simp [pade_approximation, not_lt.mpr hx, hq, Except.isOk, Except.toBool]
  · have hne : x ≠ 0 := ne_of_gt hx
    have htn : it.toNat = 0 := by omega
    simp [kh_numericE, hne, not_lt.mpr hx.le, htn, newtonLoop]
  · unfold compute_pade_coeffsE
    rw [if_neg (by omega)]

/-- Witness for C9 (amended) at `x = -1`, at `maxIter = 0`, and at
`numPoints = 0`. -/
theorem c9_witness :
    ((-1 : ℚ) < 0) ∧ kh_numericE P0 (-1) 1 3 = .error () ∧
      pade_approximation P0 (-1) [1] [] = .error () ∧
      kh_numericE P0 2 1 0 = .ok (initGuess P0 2) ∧
      compute_pade_coeffsE P0 (constSolver []) 1 0 = .error () :=
  ⟨by norm_num,
    (c9_invalid_inputs P0 (constSolver []) (-1) 1 3 1 1 [1] []).1 (by norm_num),
    (c9_invalid_inputs P0 (constSolver []) (-1) 1 3 1 1 [1] []).2.1 (by norm_num),
    (c9_invalid_inputs P0 (constSolver []) 2 1 0 1 1 [1] []).2.2.2.2.1 (by norm_num)
      (by norm_num),
    (c9_invalid_inputs P0 (constSolver []) 2 1 0 1 1 [1] []).2.2.2.2.2.1⟩

/-! ## Claim C2 -/

/-- Helper: if the stopping test fails for `n` consecutive iterates
starting at `k`, the loop walks exactly `n` iterates. -/
theorem newtonLoop_no_stop (P : MathPrims) (k0h tol kh0 : ℚ) (n : ℕ) :
    ∀ k, (∀ i, k ≤ i → i < k + n → ¬stopsAt P k0h tol kh0 i) →
      newtonLoop P k0h tol n (khIter P k0h kh0 k) = khIter P k0h kh0 (k + n) := by
  induction n with
  | zero => intro k _; rfl
  | succ n ih =>
    intro k h
    have hk : ¬(|(newtonStep P k0h (khIter P k0h kh0 k)).1 / khIter P k0h kh0 k| < tol) :=
      h k le_rfl (by omega)
    simp only [newtonLoop]
    rw [if_neg hk]
    have hstep : (newtonStep P k0h (khIter P k0h kh0 k)).2 = khIter P k0h kh0 (k + 1) := rfl
    rw [hstep, ih (k + 1) (fun i h1 h2 => h i (by omega) (by omega))]
    congr 1
    omega

/-- Helper: if the stopping test first succeeds at iterate `m` within the
fuel window, the loop returns the freshly computed iterate `m + 1`. -/
theorem newtonLoop_stop (P : MathPrims) (k0h tol kh0 : ℚ) (n : ℕ) :
    ∀ k m, k ≤ m → m < k + n → stopsAt P k0h tol kh0 m →
      (∀ i, k ≤ i → i < m → ¬stopsAt P k0h tol kh0 i) →
      newtonLoop P k0h tol n (khIter P k0h kh0 k) = khIter P k0h kh0 (m + 1) := by
  induction n with
  | zero => intro k m h1 h2 _ _; omega
  | succ n ih =>
    intro k m hkm hmn hm hfirst
    by_cases hk : m = k
    · subst hk
      have hm2 : |(newtonStep P k0h (khIter P k0h kh0 m)).1 / khIter P k0h kh0 m| < tol := hm
      simp only [newtonLoop]
      rw [if_pos hm2]
      rfl
    · have hk2 : ¬(|(newtonStep P k0h (khIter P k0h kh0 k)).1 / khIter P k0h kh0 k| < tol) :=
        hfirst k le_rfl (by omega)
      simp only [newtonLoop]
      rw [if_neg hk2]
      have hstep : (newtonStep P k0h (khIter P k0h kh0 k)).2 = khIter P k0h kh0 (k + 1) := rfl
      rw [hstep]
      exact ih (k + 1) m (by omega) (by omega) hm (fun i h1 h2 => hfirst i (by omega) h2)

/-- C2: for every `x > 0`, `tol > 0` and `maxIter > 0` the solver performs
at most `maxIter` Newton iterations and never raises on non-convergence
(the exception-aware embedding returns `ok`); it returns the newly
computed estimate `khIter (m+1)` as soon as the relative update first
satisfies `|dkh/kh| < tol` at some iteration `m < maxIter`, and otherwise
returns the last computed estimate `khIter maxIter` after `maxIter`
iterations. -/
theorem c2_solver_termination (P : MathPrims) (x tol : ℚ) (maxIter : ℤ)
    (hx : 0 < x) (htol : 0 < tol) (hit : 0 < maxIter) :
    kh_numericE P x tol maxIter = .ok (kh_numeric P x tol maxIter) ∧
      ((∀ i, i < maxIter.toNat → ¬stopsAt P x tol (initGuess P x) i) →
        kh_numeric P x tol maxIter = khIter P x (initGuess P x) maxIter.toNat) ∧
      (∀ m, m < maxIter.toNat → stopsAt P x tol (initGuess P x) m →
        (∀ i, i < m → ¬stopsAt P x tol (initGuess P x) i) →
        kh_numeric P x tol maxIter = khIter P x (initGuess P x) (m + 1)) := by
  have hne : x ≠ 0 := ne_of_gt hx
  have hnlt : ¬x < 0 := not_lt.mpr hx.le
  refine ⟨by simp [kh_numericE, kh_numeric, hne, hnlt], ?_, ?_⟩
  · intro h
    unfold kh_numeric
    rw [if_neg hne]
    have h0 : khIter P x (initGuess P x) 0 = initGuess P x := rfl
    rw [← h0]
    have := newtonLoop_no_stop P x tol (initGuess P x) maxIter.toNat 0
      (fun i _ h2 => h i (by omega))
    rwa [Nat.zero_add] at this
  · intro m hm hstop hfirst
    unfold kh_numeric
    rw [if_neg hne]
    have h0 : khIter P x (initGuess P x) 0 = initGuess P x := rfl
    rw [← h0]
    exact newtonLoop_stop P x tol (initGuess P x) maxIter.toNat 0 m (by omega)
      (by omega) hstop (fun i _ h2 => hfirst i h2)

/-- Witness for C2: with the stand-in primitives the loop at `x = 1`,
`tol = 1`, `maxIter = 5` stops at the first iteration and returns the
newly computed estimate. -/
theorem c2_witness :
    kh_numeric P0 1 1 5 = khIter P0 1 (initGuess P0 1) 1 :=
  (c2_solver_termination P0 1 1 5 (by norm_num) (by norm_num) (by norm_num)).2.2 0
    (by norm_num) (by norm_num [stopsAt, khIter, newtonStep, initGuess, P0])
    (fun i hi => absurd hi (Nat.not_lt_zero i))

/-! ## Claim C4 -/

/-- Helper: a mapped list sum over `List.range` is the `Finset.range`
sum. -/
theorem list_range_map_sum (f : ℕ → ℚ) (n : ℕ) :
    ((List.range n).map f).sum = ∑ j ∈ Finset.range n, f j := by
  induction n with
  | zero => simp
  | succ n ih =>
    rw [List.range_succ, List.map_append, List.sum_append, Finset.sum_range_succ, ih]
    simp

/-- C4: for every `x ≥ 0` and coefficient lists with `len(p) = M + 1` and
`len(q) = M`, the evaluator returns exactly numerator/denominator where
`v = sqrt(x)/uMax` with `uMax = sqrt(2*pi)`,
numerator `= uMax * v * Σ_{j≤M} p_j v^(2j)` and denominator
`= 1 + Σ_{1≤k≤M} q_k v^(2k)`; in particular it succeeds (is `ok`) for
every `x ≥ 0`, including values outside the `[0, 2π]` fitting window. -/
theorem c4_evaluator_formula (P : MathPrims) (x : ℚ) (p q : List ℚ) (M : ℕ)
    (hx : 0 ≤ x) (hp : p.length = M + 1) (hq : q.length = M) :
    pade_approximation P x p q =
      .ok ((u_maxQ P * (P.sqrt x / u_maxQ P) *
            ∑ j ∈ Finset.range (M + 1),
              p.getD j 0 * (P.sqrt x / u_maxQ P) ^ (2 * j)) /
          (1 + ∑ k ∈ Finset.range M,
              q.getD k 0 * (P.sqrt x / u_maxQ P) ^ (2 * (k + 1)))) := by
  have hnlt : ¬x < 0 := not_lt.mpr hx
  have hM : p.length - 1 = M := by omega
  have hq2 : ¬(q.length < p.length - 1) := by omega
  simp only [pade_approximation, hM]
  rw [if_neg hnlt, if_neg (by omega : ¬(q.length < M))]
  rw [list_range_map_sum, list_range_map_sum]
  show Except.ok _ = Except.ok _
  congr 1
  rw [u_maxQ]
  ring

/-- Witness for C4 at `x = 1`, `p = [1, 2]`, `q = [3]`. -/
theorem c4_witness :
    (0:ℚ) ≤ 1 ∧
      pade_approximation P0 1 [1, 2] [3] =
        .ok ((u_maxQ P0 * (P0.sqrt 1 / u_maxQ P0) *
              ∑ j ∈ Finset.range 2,
                [(1:ℚ), 2].getD j 0 * (P0.sqrt 1 / u_maxQ P0) ^ (2 * j)) /
            (1 + ∑ k ∈ Finset.range 1,
                [(3:ℚ)].getD k 0 * (P0.sqrt 1 / u_maxQ P0) ^ (2 * (k + 1)))) :=
  ⟨by norm_num, c4_evaluator_formula P0 1 [1, 2] [3] 1 (by norm_num) rfl rfl⟩

/-! ## Claim C8 -/

/-- Helper: `tanh` is strictly increasing. -/
theorem tanh_lt_tanh_of_lt (a b : ℝ) (hab : a < b) : Real.tanh a < Real.tanh b := by
  rw [Real.tanh_eq_sinh_div_cosh, Real.tanh_eq_sinh_div_cosh,
    div_lt_div_iff₀ (Real.cosh_pos a) (Real.cosh_pos b)]
  have h : 0 < Real.sinh (b - a) := Real.sinh_pos_iff.mpr (sub_pos.mpr hab)
  rw [Real.sinh_sub] at h
  have hcomm : Real.cosh b * Real.sinh a = Real.sinh a * Real.cosh b := mul_comm _ _
  linarith

/-- Helper: `tanh` is positive on positive inputs. -/
theorem tanh_pos_of_pos (a : ℝ) (ha : 0 < a) : 0 < Real.tanh a := by
  rw [Real.tanh_eq_sinh_div_cosh]
  exact div_pos (Real.sinh_pos_iff.mpr ha) (Real.cosh_pos a)

/-- Helper: the left-hand side `y * tanh y` of the dispersion relation is
strictly increasing on `[0, ∞)`. -/
theorem dispersion_lhs_strictMono (a b : ℝ) (ha : 0 ≤ a) (hab : a < b) :
    a * Real.tanh a < b * Real.tanh b := by
  rcases ha.eq_or_lt with h0 | h0
  · rw [← h0, Real.tanh_zero, mul_zero]
    exact mul_pos (h0 ▸ hab) (tanh_pos_of_pos b (h0 ▸ hab))
  · calc a * Real.tanh a < b * Real.tanh a :=
          mul_lt_mul_of_pos_right hab (tanh_pos_of_pos a h0)
    _ < b * Real.tanh b :=
          mul_lt_mul_of_pos_left (tanh_lt_tanh_of_lt a b hab) (h0.trans hab)

/-- C8: the solver's relation is strictly monotonic: whenever `y₁` and
`y₂` are the non-negative dispersion roots (`x = y·tanh(y)`) for inputs
`x₁ < x₂`, then `y₁ < y₂`.  This is the strict monotonicity of the value
`solve` computes, stated through its defining relation. -/
theorem c8_root_strict_mono (x₁ x₂ y₁ y₂ : ℝ) (h₁ : IsDispersionRoot x₁ y₁)
    (h₂ : IsDispersionRoot x₂ y₂) (h : x₁ < x₂) : y₁ < y₂ := by
  obtain ⟨hy₁, hx₁⟩ := h₁
  obtain ⟨hy₂, hx₂⟩ := h₂
  by_contra hcon
  push_neg at hcon
  rcases hcon.eq_or_lt with he | hlt
  · rw [hx₁, hx₂, he] at h
    exact lt_irrefl _ h
  · have hm := dispersion_lhs_strictMono y₂ y₁ hy₂ hlt
    rw [← hx₁, ← hx₂] at hm
    exact absurd h (not_lt.mpr hm.le)

/-- Witness for C8: the roots `0` (for input `0`) and `1` (for input
`tanh 1`), with `0 < tanh 1`. -/
theorem c8_witness : (0:ℝ) < 1 :=
  c8_root_strict_mono 0 (Real.tanh 1) 0 1
    ⟨le_refl 0, (zero_mul _).symm⟩ ⟨zero_le_one, (one_mul _).symm⟩
    (tanh_pos_of_pos 1 one_pos)

/-! ## Claim C5 -/

theorem foldl_max_le_init (a : ℚ) (l : List ℚ) : a ≤ l.foldl max a := by
  induction l generalizing a with
  | nil => exact le_refl a
  | cons x xs ih => exact le_trans (le_max_left a x) (ih (max a x))

theorem mem_le_foldl_max (a : ℚ) (l : List ℚ) : ∀ x ∈ l, x ≤ l.foldl max a := by
  induction l generalizing a with
  | nil => intro x hx; cases hx
  | cons y ys ih =>
    intro x hx
    rcases List.mem_cons.mp hx with rfl | hmem
    · exact le_trans (le_max_right a x) (foldl_max_le_init (max a x) ys)
    · exact ih (max a y) x hmem

theorem foldl_max_mem (a : ℚ) (l : List ℚ) : l.foldl max a = a ∨ l.foldl max a ∈ l := by
  induction l generalizing a with
  | nil => exact Or.inl rfl
  | cons y ys ih =>
    rw [List.foldl_cons]
    rcases ih (max a y) with h | h
    · rcases max_cases a y with ⟨he, _⟩ | ⟨he, _⟩
      · exact Or.inl (by rw [h, he])
      · exact Or.inr (by rw [h, he]; exact List.mem_cons_self y ys)
    · exact Or.inr (List.mem_cons_of_mem y h)

/-- Helper: `pymax` bounds every member of the list. -/
theorem pymax_is_ub (l : List ℚ) : ∀ x ∈ l, x ≤ pymax l := by
  cases l with
  | nil => intro x hx; cases hx
  | cons a as =>
    intro x hx
    rcases List.mem_cons.mp hx with rfl | hmem
    · exact foldl_max_le_init x as
    · exact mem_le_foldl_max a as x hmem

/-- Helper: `pymax` of a nonempty list is a member. -/
theorem pymax_mem (l : List ℚ) (h : l ≠ []) : pymax l ∈ l := by
  cases l with
  | nil => exact absurd rfl h
  | cons a as =>
    show as.foldl max a ∈ a :: as
    rcases foldl_max_mem a as with h1 | h1
    · rw [h1]; exact List.mem_cons_self a as
    · exact List.mem_cons_of_mem a h1

/-- Helper: `List.indexOf` of a member is in range, retrieves it, and is
the first such index. -/
theorem indexOf_spec (l : List ℚ) (a : ℚ) (h : a ∈ l) :
    l.indexOf a < l.length ∧ l.getD (l.indexOf a) 0 = a ∧
      ∀ j < l.indexOf a, l.getD j 0 ≠ a := by
  induction l with
  | nil => cases h
  | cons x xs ih =>
    by_cases hx : x = a
    · subst hx
      have h0 : (x :: xs).indexOf x = 0 := by simp [List.indexOf_cons]
      rw [h0]
      exact ⟨Nat.succ_pos _, rfl, fun j hj => absurd hj (Nat.not_lt_zero j)⟩
    · have hmem : a ∈ xs := by
        rcases List.mem_cons.mp h with h1 | h1
        · exact absurd h1.symm hx
        · exact h1
      have hsucc : (x :: xs).indexOf a = xs.indexOf a + 1 := by
        simp [List.indexOf_cons, hx]
      obtain ⟨ih1, ih2, ih3⟩ := ih hmem
      rw [hsucc]
      refine ⟨by simpa using ih1, by simpa using ih2, ?_⟩
      intro j hj
      cases j with
      | zero => simpa using hx
      | succ j =>
        have : j < xs.indexOf a := by omega
        simpa using ih3 j this

/-- C5 counterexample: the analyzer `compute_errors` does not compute the
claimed pointwise error `|candidate − reference| / |reference|` with a
`1e-12` epsilon guard — it computes a percentage (`100×`) with an exact
zero guard.  At reference `1`, candidate `2` on grid `[1]` the two
disagree. -/
theorem c5_counterexample :
    compute_errors (fun _ => 1) (fun _ => 2) [1] ≠
      spec_analyze (fun _ => 1) (fun _ => 2) [1] := by
  intro hc
  have h1 := congrArg Prod.fst hc
  norm_num [compute_errors, spec_analyze, relErr, spec_relErr, pymax] at h1

/-- Helper: a mapped list sum as a `Finset.range` sum over `getD`. -/
theorem list_map_sum_getD (f : ℚ → ℚ) (l : List ℚ) :
    (l.map f).sum = ∑ i ∈ Finset.range l.length, f (l.getD i 0) := by
  induction l with
  | nil => simp
  | cons a as ih =>
    rw [List.map_cons, List.sum_cons, List.length_cons, Finset.sum_range_succ']
    simp only [List.getD_cons_succ, List.getD_cons_zero]
    rw [ih]
    ring

/-- Helper: `getD` through a map with in-range index. -/
theorem getD_map_eq (f : ℚ → ℚ) (l : List ℚ) (i : ℕ) (h : i < l.length) :
    (l.map f).getD i 0 = f (l.getD i 0) := by
  rw [List.getD_eq_getElem _ _ (by simpa using h), List.getD_eq_getElem _ _ h,
    List.getElem_map]

/-- C5 (amended): the analyzer's pointwise relative error is `0` when the
reference root value is exactly `0` (no epsilon threshold) and
`100·|candidate − reference|/|reference|` (a percentage) otherwise; the
aggregates are the arithmetic mean of the pointwise errors, their
maximum, and the first grid input at which the maximum occurred. -/
theorem c5_error_analyzer (kh func : ℚ → ℚ) (vals : List ℚ) (hne : vals ≠ []) :
    (∀ v, kh v = 0 → relErr (kh v) (func v) = 0) ∧
      (∀ v, kh v ≠ 0 →
        relErr (kh v) (func v) = 100 * |func v - kh v| / |kh v|) ∧
      (compute_errors kh func vals).1 =
        (∑ i ∈ Finset.range vals.length,
            relErr (kh (vals.getD i 0)) (func (vals.getD i 0))) / vals.length ∧
      (∀ v ∈ vals, relErr (kh v) (func v) ≤ (compute_errors kh func vals).2.1) ∧
      (∃ v ∈ vals, relErr (kh v) (func v) = (compute_errors kh func vals).2.1) ∧
      (∃ i, i < vals.length ∧ (compute_errors kh func vals).2.2 = vals.getD i 0 ∧
        relErr (kh (vals.getD i 0)) (func (vals.getD i 0)) =
          (compute_errors kh func vals).2.1 ∧
        ∀ j < i, relErr (kh (vals.getD j 0)) (func (vals.getD j 0)) ≠
          (compute_errors kh func vals).2.1) := by
  have hmapne : vals.map (fun val => relErr (kh val) (func val)) ≠ [] := by
    intro hmap
    exact hne (List.map_eq_nil_iff.mp hmap)
  have hmax2 : (compute_errors kh func vals).2.1 =
      pymax (vals.map (fun val => relErr (kh val) (func val))) := rfl
  refine ⟨fun v hv => by simp [relErr, hv], fun v hv => by simp [relErr, hv],
    ?_, ?_, ?_, ?_⟩
  · show (vals.map (fun val => relErr (kh val) (func val))).sum /
        ((vals.map (fun val => relErr (kh val) (func val))).length : ℚ) = _
    rw [List.length_map, list_map_sum_getD]
  · intro v hv
    rw [hmax2]
    exact pymax_is_ub _ _ (List.mem_map_of_mem _ hv)
  · rw [hmax2]
    obtain ⟨v, hv, hev⟩ := List.mem_map.mp (pymax_mem _ hmapne)
    exact ⟨v, hv, hev⟩
  · obtain ⟨hlt, hget, hfirst⟩ :=
      indexOf_spec (vals.map (fun val => relErr (kh val) (func val)))
        (pymax (vals.map (fun val => relErr (kh val) (func val))))
        (pymax_mem _ hmapne)
    rw [List.length_map] at hlt
    refine ⟨(vals.map (fun val => relErr (kh val) (func val))).indexOf
        (pymax (vals.map (fun val => relErr (kh val) (func val)))), hlt, rfl, ?_, ?_⟩
    · rw [hmax2, ← getD_map_eq (fun val => relErr (kh val) (func val)) vals _ hlt]
      exact hget
    · intro j hj
      rw [hmax2, ← getD_map_eq (fun val => relErr (kh val) (func val)) vals j
        (by omega)]
      exact hfirst j hj

/-- Witness for C5 (amended) on the grid `[1, 2]` with reference `id` and
candidate doubling. -/
theorem c5_witness :
    ([(1:ℚ), 2] ≠ []) ∧
      (∀ v ∈ [(1:ℚ), 2], relErr ((fun q => q) v) ((fun q => 2 * q) v) ≤
        (compute_errors (fun q => q) (fun q => 2 * q) [1, 2]).2.1) :=
  ⟨by simp,
    (c5_error_analyzer (fun q => q) (fun q => 2 * q) [1, 2] (by simp)).2.2.2.1⟩

/-! ## Claim C6 -/

/-- Helper: the ranking key comparison is total. -/
theorem rankKeyLe_total : ∀ a b : RankEntry, (rankKeyLe a b || rankKeyLe b a) = true := by
  rintro ⟨na, _ | sa⟩ ⟨nb, _ | sb⟩ <;> simp [rankKeyLe]
  rcases lt_trichotomy sa.1 sb.1 with h | h | h
  · exact Or.inl (Or.inl h)
  · rcases le_total sa.2.1 sb.2.1 with h2 | h2
    · exact Or.inl (Or.inr ⟨h, h2⟩)
    · exact Or.inr (Or.inr ⟨h.symm, h2⟩)
  · exact Or.inr (Or.inl h)

/-- Helper: the ranking key comparison is transitive. -/
theorem rankKeyLe_trans : ∀ a b c : RankEntry, rankKeyLe a b = true →
    rankKeyLe b c = true → rankKeyLe a c = true := by
  rintro ⟨na, _ | sa⟩ ⟨nb, _ | sb⟩ ⟨nc, _ | sc⟩ <;> simp [rankKeyLe] <;>
    rintro (h1 | ⟨he1, hle1⟩) (h2 | ⟨he2, hle2⟩)
  · exact Or.inl (h1.trans h2)
  · exact Or.inl (he2 ▸ h1)
  · exact Or.inl (he1 ▸ h2)
  · exact Or.inr ⟨he1.trans he2, hle1.trans hle2⟩

/-- Helper: grid evaluation fails exactly when the candidate raises
somewhere on the grid. -/
theorem tryEval_eq_none_iff (func : ℚ → Option ℚ) (l : List ℚ) :
    tryEval func l = none ↔ ∃ v ∈ l, func v = none := by
  induction l with
  | nil => simp [tryEval]
  | cons a as ih =>
    simp only [tryEval]
    rcases hf : func a with _ | y
    · refine iff_of_true rfl ⟨a, List.mem_cons_self a as, hf⟩
    · rcases ht : tryEval func as with _ | ys
      · refine iff_of_true rfl ?_
        obtain ⟨v, hv, hfv⟩ := ih.mp ht
        exact ⟨v, List.mem_cons_of_mem a hv, hfv⟩
      · refine iff_of_false (by simp) ?_
        rintro ⟨v, hv, hfv⟩
        rcases List.mem_cons.mp hv with rfl | hmem
        · rw [hf] at hfv; cases hfv
        · rw [ih.mpr ⟨v, hmem, hfv⟩] at ht; cases ht

/-- Helper: `analyze` flags a candidate (returns `none`) exactly when the
grid evaluation fails. -/
theorem analyze_eq_none_iff (kh : ℚ → ℚ) (func : ℚ → Option ℚ) (vals : List ℚ) :
    analyze kh func vals = none ↔ ∃ v ∈ vals, func v = none := by
  rw [← tryEval_eq_none_iff func vals]
  unfold analyze
  rcases tryEval func vals with _ | ys <;> simp

/-- C6: the ranking run analyzes every candidate and never aborts (the
output is a permutation of all per-candidate results), it is sorted
ascending by the lexicographic key `(avgErr, maxErr)` with failed
candidates keyed as infinity, every failed candidate is sorted after
every successful one, and a candidate is flagged (`none` statistics
instead of numeric scores) exactly when its evaluation raised on some
grid point. -/
theorem c6_ranking (kh : ℚ → ℚ) (cands : List (String × (ℚ → Option ℚ)))
    (vals : List ℚ) :
    (rank kh cands vals).Perm
        (cands.map (fun c => { name := c.1, stats := analyze kh c.2 vals : RankEntry })) ∧
      (rank kh cands vals).Pairwise (fun a b => rankKeyLe a b = true) ∧
      (∀ i j (hi : i < (rank kh cands vals).length)
          (hj : j < (rank kh cands vals).length), i ≤ j →
          ((rank kh cands vals).get ⟨i, hi⟩).stats = none →
          ((rank kh cands vals).get ⟨j, hj⟩).stats = none) ∧
      (∀ c ∈ cands, (analyze kh c.2 vals = none ↔ ∃ v ∈ vals, c.2 v = none)) := by
  have hsorted : (rank kh cands vals).Pairwise (fun a b => rankKeyLe a b = true) :=
    List.sorted_mergeSort (fun a b c => by
        simpa using rankKeyLe_trans a b c)
      (fun a b => by simpa using rankKeyLe_total a b) _
  refine ⟨List.mergeSort_perm _ _, hsorted, ?_, fun c _ => analyze_eq_none_iff kh c.2 vals⟩
  intro i j hi hj hij hnone
  rcases Nat.eq_or_lt_of_le hij with rfl | hlt
  · exact hnone
  · have hpair := List.pairwise_iff_get.mp hsorted ⟨i, hi⟩ ⟨j, hj⟩ hlt
    rcases hgj : ((rank kh cands vals).get ⟨j, hj⟩).stats with _ | s
    · rfl
    · exfalso
      rw [rankKeyLe.eq_def] at hpair
      rw [hnone, hgj] at hpair
      cases hpair

/-- Witness for C6 on a two-candidate run where one candidate raises. -/
theorem c6_witness :
    (rank (fun q => q) [("alpha", fun _ => none), ("beta", fun q => some q)] [1]).Perm
      ([("alpha", fun _ => (none : Option ℚ)), ("beta", fun q => some q)].map
        (fun c => { name := c.1, stats := analyze (fun q => q) c.2 [1] : RankEntry })) :=
  (c6_ranking (fun q => q) [("alpha", fun _ => none), ("beta", fun q => some q)] [1]).1

/-! ## Claim C1 -/

/-- Helper: numerator column `j ≤ M` of a design row. -/
theorem designRow_getD_left (u g v : ℚ) (M j : ℕ) (hj : j ≤ M) :
    (designRow u g v M).getD j 0 = u * v ^ (2 * j + 1) := by
  have h1 : j < ((List.range (M + 1)).map (fun j => u * v ^ (2 * j + 1))).length := by
    rw [List.length_map, List.length_range]; omega
  have h2 : j < (designRow u g v M).length := by rw [designRow_length]; omega
  rw [List.getD_eq_getElem _ _ h2]
  unfold designRow
  rw [List.getElem_append_left h1, List.getElem_map, List.getElem_range]

/-- Helper: denominator column `M + k` (`k = 1..M`) of a design row. -/
theorem designRow_getD_right (u g v : ℚ) (M k : ℕ) (hk1 : 1 ≤ k) (hk2 : k ≤ M) :
    (designRow u g v M).getD (M + k) 0 = -g * v ^ (2 * k) := by
  have h2 : M + k < (designRow u g v M).length := by rw [designRow_length]; omega
  rw [List.getD_eq_getElem _ _ h2]
  unfold designRow
  have hlen1 : ((List.range (M + 1)).map (fun j => u * v ^ (2 * j + 1))).length = M + 1 := by
    rw [List.length_map, List.length_range]
  rw [List.getElem_append_right (by rw [hlen1]; omega)]
  simp only [List.getElem_map, List.getElem_range, hlen1]
  have hidx : M + k - (M + 1) + 1 = k := by omega
  rw [hidx]

/-- Helper: row `i` of the design matrix. -/
theorem fitA_getD (P : MathPrims) (d n i : ℕ) (hi : i < n) :
    (fitA P d n).getD i [] =
      designRow (u_maxQ P) (fit_g P (u_maxQ P * (fit_v_vals P n).getD i 0))
        ((fit_v_vals P n).getD i 0) (fitM d) := by
  have hvl : i < (fit_v_vals P n).length := by rw [fit_v_vals_length]; exact hi
  have hgl : i < (fit_g_vals P n).length := by rw [fit_g_vals_length]; exact hi
  have hzl : i < ((fit_v_vals P n).zip (fit_g_vals P n)).length := by
    rw [List.length_zip, fit_v_vals_length, fit_g_vals_length, Nat.min_self]
    exact hi
  have hi2 : i < (fitA P d n).length := by rw [fitA_length]; exact hi
  rw [List.getD_eq_getElem _ _ hi2]
  unfold fitA
  rw [List.getElem_map, List.getElem_zip]
  have hg : (fit_g_vals P n)[i] = fit_g P (u_maxQ P * (fit_v_vals P n).getD i 0) := by
    unfold fit_g_vals
    rw [List.getElem_map, List.getElem_map, List.getD_eq_getElem _ _ hvl]
  have hv : (fit_v_vals P n)[i] = (fit_v_vals P n).getD i 0 :=
    (List.getD_eq_getElem _ _ hvl).symm
  rw [hg, hv]

/-- Helper: every row of the design matrix has one entry per column. -/
theorem fitA_row_length (P : MathPrims) (d n i : ℕ) (hi : i < n) :
    ((fitA P d n).getD i []).length = 2 * fitM d + 1 := by
  rw [fitA_getD P d n i hi, designRow_length]

/-- Helper: members of a `foldr max 0` list are bounded by it. -/
theorem le_foldr_max (l : List ℚ) : ∀ x ∈ l, x ≤ l.foldr max 0 := by
  induction l with
  | nil => intro x hx; cases hx
  | cons a as ih =>
    intro x hx
    rw [List.foldr_cons]
    rcases List.mem_cons.mp hx with rfl | hm
    · exact le_max_left _ _
    · exact le_trans (ih x hm) (le_max_right _ _)

/-- Helper: a `foldr max 0` is `0` or attained by a member. -/
theorem foldr_max_cases (l : List ℚ) : l.foldr max 0 = 0 ∨ l.foldr max 0 ∈ l := by
  induction l with
  | nil => exact Or.inl rfl
  | cons a as ih =>
    rw [List.foldr_cons]
    rcases max_cases a (as.foldr max 0) with ⟨he, _⟩ | ⟨he, _⟩
    · exact Or.inr (by rw [he]; exact List.mem_cons_self a as)
    · rcases ih with h0 | hm
      · exact Or.inl (by rw [he, h0])
      · exact Or.inr (by rw [he]; exact List.mem_cons_of_mem a hm)

/-- Helper: the column maximum bounds every entry of the column. -/
theorem colMaxAbs_is_ub (A : List (List ℚ)) (j i : ℕ) (hi : i < A.length) :
    |(A.getD i []).getD j 0| ≤ colMaxAbs A j := by
  unfold colMaxAbs
  refine le_foldr_max _ _ ?_
  rw [List.getD_eq_getElem _ _ hi]
  exact List.mem_map_of_mem _ (List.getElem_mem hi)

/-- Helper: the column maximum is `0` or attained at some row. -/
theorem colMaxAbs_cases (A : List (List ℚ)) (j : ℕ) :
    colMaxAbs A j = 0 ∨
      ∃ i, i < A.length ∧ colMaxAbs A j = |(A.getD i []).getD j 0| := by
  rcases foldr_max_cases (A.map (fun row => |row.getD j 0|)) with h0 | hm
  · exact Or.inl h0
  · right
    obtain ⟨row, hrow, habs⟩ := List.mem_map.mp hm
    obtain ⟨i, hi, hgi⟩ := List.mem_iff_getElem.mp hrow
    refine ⟨i, hi, ?_⟩
    rw [List.getD_eq_getElem _ _ hi, hgi, habs]
    rfl

/-- Helper: entry `j` of the scale vector. -/
theorem fitScales_getD (P : MathPrims) (d n j : ℕ) (hj : j < 2 * fitM d + 1) :
    (fitScales P d n).getD j 0 =
      if colMaxAbs (fitA P d n) j = 0 then 1 else colMaxAbs (fitA P d n) j := by
  unfold fitScales
  have h1 : j < (((List.range (2 * fitM d + 1)).map
      (colMaxAbs (fitA P d n))).map (fun c => if c = 0 then 1 else c)).length := by
    rw [List.length_map, List.length_map, List.length_range]; omega
  rw [List.getD_eq_getElem _ _ h1, List.getElem_map, List.getElem_map,
    List.getElem_range]

/-- Helper: entry `(i, j)` of the scaled matrix. -/
theorem fitAscaled_getD (P : MathPrims) (d n i j : ℕ) (hi : i < n)
    (hj : j < 2 * fitM d + 1) :
    ((fitAscaled P d n).getD i []).getD j 0 =
      ((fitA P d n).getD i []).getD j 0 / (fitScales P d n).getD j 0 := by
  have hi2 : i < (fitA P d n).length := by rw [fitA_length]; exact hi
  have hi3 : i < (fitAscaled P d n).length := by
    unfold fitAscaled; rw [List.length_map]; exact hi2
  have hrow : j < ((fitA P d n).getD i []).length := by
    rw [fitA_row_length P d n i hi]; exact hj
  have hsc : j < (fitScales P d n).length := by rw [fitScales_length]; exact hj
  have hzj : j < (List.zipWith (fun a c => a / c) ((fitA P d n).getD i [])
      (fitScales P d n)).length := by
    rw [List.length_zipWith]
    exact lt_min hrow hsc
  rw [List.getD_eq_getElem _ _ hi3]
  unfold fitAscaled
  rw [List.getElem_map]
  rw [show (fitA P d n)[i] = (fitA P d n).getD i [] from
    (List.getD_eq_getElem _ _ hi2).symm]
  rw [List.getD_eq_getElem _ _ hzj, List.getElem_zipWith,
    List.getD_eq_getElem _ _ hrow, List.getD_eq_getElem _ _ hsc]

/-- Helper: entry `j` of the unscaled solution vector. -/
theorem fitX_getD (P : MathPrims) (lstsq : List (List ℚ) → List ℚ → List ℚ)
    (d n j : ℕ) (hj : j < 2 * fitM d + 1)
    (hl : (lstsq (fitAscaled P d n) (fit_b P n)).length = 2 * fitM d + 1) :
    (fitX P lstsq d n).getD j 0 =
      (lstsq (fitAscaled P d n) (fit_b P n)).getD j 0 /
        (fitScales P d n).getD j 0 := by
  have hxj : j < (lstsq (fitAscaled P d n) (fit_b P n)).length := by rw [hl]; exact hj
  have hsj : j < (fitScales P d n).length := by rw [fitScales_length]; exact hj
  have hzj : j < (fitX P lstsq d n).length := by
    rw [fitX_length P lstsq d n hl]; exact hj
  rw [List.getD_eq_getElem _ _ hzj]
  unfold fitX
  rw [List.getElem_zipWith, ← List.getD_eq_getElem _ _ hxj,
    ← List.getD_eq_getElem _ _ hsj]

/-- C1: for every `requestedDegree ≥ 1` and `numPoints ≥ 1` (and any
least-squares routine returning one entry per column of the system) the
fitter builds the design matrix `A` of shape `numPoints × (2M+1)`: its
column `j ≤ M` holds `uMax·v_i^(2j+1)` and its column `M+k` (`k = 1..M`)
holds `−g(u_i)·v_i^(2k)` with `g(u) = kh_numeric(u²)` and
`u_i = uMax·v_i`; the right-hand side `b` is the vector of `g(u_i)`
values; each column of `A` is scaled by its maximum absolute value
(identically-zero columns get scale 1); the scaled system is solved by
the least-squares routine and its solution is unscaled by dividing by
the same per-column factors; the first `M+1` solved values are returned
as `p` and the remaining `M` as `q`. -/
theorem c1_fitter_system (P : MathPrims)
    (lstsq : List (List ℚ) → List ℚ → List ℚ) (d n : ℕ) (hd : 1 ≤ d) (hn : 1 ≤ n)
    (hl : (lstsq (fitAscaled P d n) (fit_b P n)).length = 2 * fitM d + 1) :
    ((fitA P d n).length = n ∧
        ∀ row ∈ fitA P d n, row.length = 2 * fitM d + 1) ∧
      (∀ i j, i < n → j ≤ fitM d →
        ((fitA P d n).getD i []).getD j 0 =
          u_maxQ P * ((fit_v_vals P n).getD i 0) ^ (2 * j + 1)) ∧
      (∀ i k, i < n → 1 ≤ k → k ≤ fitM d →
        ((fitA P d n).getD i []).getD (fitM d + k) 0 =
          -(fit_g P (u_maxQ P * (fit_v_vals P n).getD i 0)) *
            ((fit_v_vals P n).getD i 0) ^ (2 * k)) ∧
      fit_b P n = (fit_v_vals P n).map (fun v => fit_g P (u_maxQ P * v)) ∧
      (∀ j, j < 2 * fitM d + 1 →
        (∀ i, i < n →
          |((fitA P d n).getD i []).getD j 0| ≤ (fitScales P d n).getD j 0) ∧
        ((∃ i, i < n ∧ ((fitA P d n).getD i []).getD j 0 ≠ 0) →
          ∃ i, i < n ∧
            (fitScales P d n).getD j 0 = |((fitA P d n).getD i []).getD j 0|) ∧
        ((∀ i, i < n → ((fitA P d n).getD i []).getD j 0 = 0) →
          (fitScales P d n).getD j 0 = 1)) ∧
      (∀ i j, i < n → j < 2 * fitM d + 1 →
        ((fitAscaled P d n).getD i []).getD j 0 =
          ((fitA P d n).getD i []).getD j 0 / (fitScales P d n).getD j 0) ∧
      (∀ j, j < 2 * fitM d + 1 →
        (fitX P lstsq d n).getD j 0 =
          (lstsq (fitAscaled P d n) (fit_b P n)).getD j 0 /
            (fitScales P d n).getD j 0) ∧
      (compute_pade_coeffs P lstsq d n).p = (fitX P lstsq d n).take (fitM d + 1) ∧
      (compute_pade_coeffs P lstsq d n).q = (fitX P lstsq d n).drop (fitM d + 1) := by
  refine ⟨⟨fitA_length P d n, ?_⟩, ?_, ?_, ?_, ?_,
    fun i j hi hj => fitAscaled_getD P d n i j hi hj,
    fun j hj => fitX_getD P lstsq d n j hj hl, rfl, rfl⟩
  · intro row hrow
    obtain ⟨i, hi, hgi⟩ := List.mem_iff_getElem.mp hrow
    have hi2 : i < n := by rw [fitA_length] at hi; exact hi
    rw [← hgi, show (fitA P d n)[i] = (fitA P d n).getD i [] from
      (List.getD_eq_getElem _ _ hi).symm]
    exact fitA_row_length P d n i hi2
  · intro i j hi hj
    rw [fitA_getD P d n i hi, designRow_getD_left _ _ _ _ _ hj]
  · intro i k hi hk1 hk2
    rw [fitA_getD P d n i hi, designRow_getD_right _ _ _ _ _ hk1 hk2]
  · unfold fit_b fit_g_vals fit_v_vals
    rw [List.map_map]
    rfl
  · intro j hj
    have hA : (fitA P d n).length = n := fitA_length P d n
    refine ⟨?_, ?_, ?_⟩
    · intro i hi
      rw [fitScales_getD P d n j hj]
      have hub := colMaxAbs_is_ub (fitA P d n) j i (by rw [hA]; exact hi)
      split
      · rename_i h0
        rw [h0] at hub
        have : |((fitA P d n).getD i []).getD j 0| = 0 := le_antisymm hub (abs_nonneg _)
        rw [this]
        norm_num
      · exact hub
    · rintro ⟨i, hi, hne0⟩
      have hmax0 : colMaxAbs (fitA P d n) j ≠ 0 := by
        intro h0
        have hub := colMaxAbs_is_ub (fitA P d n) j i (by rw [hA]; exact hi)
        rw [h0] at hub
        exact hne0 (abs_eq_zero.mp (le_antisymm hub (abs_nonneg _)))
      rcases colMaxAbs_cases (fitA P d n) j with h0 | ⟨i2, hi2, hatt⟩
      · exact absurd h0 hmax0
      · refine ⟨i2, by rw [hA] at hi2; exact hi2, ?_⟩
        rw [fitScales_getD P d n j hj, if_neg hmax0]
        exact hatt
    · intro hall
      rw [fitScales_getD P d n j hj]
      have hmax0 : colMaxAbs (fitA P d n) j = 0 := by
        rcases colMaxAbs_cases (fitA P d n) j with h0 | ⟨i2, hi2, hatt⟩
        · exact h0
        · rw [hatt, hall i2 (by rw [hA] at hi2; exact hi2), abs_zero]
      rw [if_pos hmax0]

/-- Witness for C1 at `requestedDegree = 1`, `numPoints = 1`. -/
theorem c1_witness :
    1 ≤ 1 ∧
      fit_b P0 1 = (fit_v_vals P0 1).map (fun v => fit_g P0 (u_maxQ P0 * v)) :=
  ⟨le_refl 1,
    (c1_fitter_system P0 (constSolver [0]) 1 1 (le_refl 1) (le_refl 1) rfl).2.2.2.1⟩

end WaveDisp
